import Mathlib

set_option linter.all false

namespace FeedbackService

/-! Shallow embedding of `src/main.py`, the feedback-collection HTTP
service: data model, pydantic validation, route handlers and exception
handlers, together with proofs about the request/response contract. -/

/-- Mirror of the SQLAlchemy model `Feedback` (main.py 46-53): one row of
the `feedback` table.  Timestamps are abstracted as naturals; the store's
`func.now()` becomes an explicit current-time argument threaded through
the mutating operations. -/
structure Feedback where
  id : Int
  score : Int
  full_name : String
  email : String
  created_at : Nat
  updated_at : Nat
  deriving Repr, DecidableEq

/-- The backing store: the rows of the `feedback` table plus the state of
the primary-key sequence (`id` is an autoincrementing `primary_key`
integer column, assigned by the store on insertion). -/
structure DB where
  rows : List Feedback
  nextId : Int
  deriving Repr, DecidableEq

/-- Mirror of the pydantic request model `FeedbackCreate` (main.py 60-63):
`score : conint(ge=1, le=5)`, `full_name : str`, `email : EmailStr`, all
three required. -/
structure FeedbackCreate where
  score : Int
  full_name : String
  email : String
  deriving Repr, DecidableEq

/-- Mirror of the pydantic request model `FeedbackUpdate` (main.py 65-68):
all three fields optional with default `None`; here `none` models a field
absent from the request body (`dict(exclude_unset=True)` later drops
exactly these). -/
structure FeedbackUpdate where
  score : Option Int
  full_name : Option String
  email : Option String
  deriving Repr, DecidableEq

/-- The range constraint `conint(ge=1, le=5)` applied to `score` in both
request models. -/
def conint_ge1_le5 (s : Int) : Bool :=
  decide (1 ≤ s) && decide (s ≤ 5)

/-- Model of the syntactic check pydantic's `EmailStr` performs on the
email field: exactly one at-sign separating a nonempty local part from a
domain that contains a dot and neither starts nor ends with one.  The
real validator enforces more of the RFC; the claims settled below depend
only on which fields are checked at all and on ordinary addresses
passing, not on the finer points of address syntax. -/
def isValidEmail (s : String) : Bool :=
  let cs := s.toList
  let lp := cs.takeWhile (fun c => c != '@')
  let dom := (cs.dropWhile (fun c => c != '@')).drop 1
  (cs.filter (fun c => c == '@')).length == 1 &&
    !lp.isEmpty && !dom.isEmpty && dom.contains '.' &&
    dom.head? != some '.' && dom.getLast? != some '.'

/-- Pydantic validation of a `FeedbackCreate` body: `score` must satisfy
`conint(ge=1, le=5)` and `email` must be a syntactically valid address.
`full_name` is a bare `str` in the source, so no constraint applies to
it. -/
def FeedbackCreate.valid (p : FeedbackCreate) : Bool :=
  conint_ge1_le5 p.score && isValidEmail p.email

/-- Pydantic validation of a `FeedbackUpdate` body: each field is checked
only when supplied; `full_name` is a bare `Optional[str]`, unconstrained. -/
def FeedbackUpdate.valid (p : FeedbackUpdate) : Bool :=
  (match p.score with
   | none => true
   | some s => conint_ge1_le5 s) &&
  (match p.email with
   | none => true
   | some e => isValidEmail e)

/-- Mirror of `FeedbackResponseData` (main.py 70-76).  The source
serialises the two timestamps with `.isoformat()`, an injective and
order-preserving encoding of the timestamp; the embedding keeps them as
naturals. -/
structure FeedbackResponseData where
  id : Int
  score : Int
  full_name : String
  email : String
  created_at : Nat
  updated_at : Nat
  deriving Repr, DecidableEq

/-- Serialisation of a stored row into the response data model, as done
field by field in each handler. -/
def toResponseData (r : Feedback) : FeedbackResponseData :=
  ⟨r.id, r.score, r.full_name, r.email, r.created_at, r.updated_at⟩

/-- The `data` field of `ResponseModel` is `Optional[Any]`; across the
source it carries either one `FeedbackResponseData` or a list of them. -/
inductive Payload where
  | item (d : FeedbackResponseData)
  | items (ds : List FeedbackResponseData)
  deriving Repr, DecidableEq

/-- Mirror of `ResponseModel` (main.py 78-81), the uniform envelope. -/
structure ResponseModel where
  code : Int
  message : String
  data : Option Payload
  deriving Repr, DecidableEq

/-- A response body is either the `ResponseModel` envelope or the body
FastAPI's default `RequestValidationError` handler produces: a bare
`detail` list describing each failed field, with no `code`, `message` or
`data` keys.  The source registers custom handlers only for
`HTTPException` and `Exception` (main.py 83-105), so request-validation
failures keep the framework's default shape. -/
inductive RespBody where
  | envelope (m : ResponseModel)
  | validationDetail (errors : List String)
  deriving Repr, DecidableEq

/-- An HTTP response: status code plus JSON body. -/
structure HttpResponse where
  status : Int
  body : RespBody
  deriving Repr, DecidableEq

/-- Whether a body has the `\x7bcode, message, data\x7d` envelope shape. -/
def RespBody.isEnvelope : RespBody → Bool
  | .envelope _ => true
  | .validationDetail _ => false

/-- FastAPI/Starlette `HTTPException` as raised by the handlers. -/
structure HTTPException where
  status_code : Int
  detail : String
  deriving Repr, DecidableEq

/-- Starlette's `HTTPException.__str__`, which the handlers invoke as
`str(e)` when re-wrapping a caught exception: the text
`"\x7bstatus_code\x7d: \x7bdetail\x7d"`. -/
def HTTPException.str (e : HTTPException) : String :=
  toString e.status_code ++ (": ") ++ e.detail

/-- The exception every not-found branch raises (main.py 143, 194, 214). -/
def notFoundExc : HTTPException :=
  ⟨404, "Feedback not found"⟩

/-- Mirror of `custom_http_exception_handler` (main.py 83-93): an
`HTTPException` becomes a JSON response whose status and envelope `code`
are the exception's status code, `message` its detail, `data` null. -/
def custom_http_exception_handler (exc : HTTPException) : HttpResponse :=
  ⟨exc.status_code, .envelope ⟨exc.status_code, exc.detail, none⟩⟩

/-- Mirror of `global_exception_handler` (main.py 95-105). -/
def global_exception_handler : HttpResponse :=
  ⟨500, .envelope ⟨500, "Internal Server Error", none⟩⟩

/-- The response a missing id produces in get, update and delete: the
handler raises `HTTPException(404, "Feedback not found")`, its own
`except Exception` clause catches it (`HTTPException` subclasses
`Exception`) and re-raises `HTTPException(500, str(e))`, and
`custom_http_exception_handler` renders that. -/
def notFoundResponse : HttpResponse :=
  custom_http_exception_handler ⟨500, HTTPException.str notFoundExc⟩

/-- Primary-key lookup, `db.get(Feedback, feedback_id)`. -/
def dbGet (db : DB) (fid : Int) : Option Feedback :=
  db.rows.find? (fun r => r.id == fid)

/-- Mirror of `create_feedback` (main.py 107-133), run after request
validation has passed: insert a row with store-assigned id and both
timestamps set to the current time `t`, then return the enveloped
record. -/
def create_feedback (db : DB) (t : Nat) (p : FeedbackCreate) : HttpResponse × DB :=
  let row : Feedback := ⟨db.nextId, p.score, p.full_name, p.email, t, t⟩
  (⟨200, .envelope ⟨200, "Feedback submitted successfully", some (.item (toResponseData row))⟩⟩,
   ⟨db.rows ++ [row], db.nextId + 1⟩)

/-- Mirror of `get_feedback` (main.py 135-159); the missing-id branch
takes the raise-catch-rewrap path described at `notFoundResponse`. -/
def get_feedback (db : DB) (fid : Int) : HttpResponse :=
  match dbGet db fid with
  | none => notFoundResponse
  | some r =>
      ⟨200, .envelope ⟨200, "Feedback retrieved successfully", some (.item (toResponseData r))⟩⟩

/-- Mirror of `get_all_feedback` (main.py 161-184). -/
def get_all_feedback (db : DB) : HttpResponse :=
  ⟨200, .envelope ⟨200, "All feedback retrieved successfully",
    some (.items (db.rows.map toResponseData))⟩⟩

/-- Mirror of `delete_feedback` (main.py 186-204): a missing id takes the
same raise-catch-rewrap path as `get_feedback`; otherwise the row is
removed and the envelope carries `data = null`. -/
def delete_feedback (db : DB) (fid : Int) : HttpResponse × DB :=
  match dbGet db fid with
  | none => (notFoundResponse, db)
  | some _ =>
      (⟨200, .envelope ⟨200, "Feedback deleted successfully", none⟩⟩,
       ⟨db.rows.filter (fun r => r.id != fid), db.nextId⟩)

/-- Whether `feedback.dict(exclude_unset=True)` is the empty dict, i.e. no
field was supplied in the request body. -/
def FeedbackUpdate.isEmpty (p : FeedbackUpdate) : Bool :=
  p.score.isNone && p.full_name.isNone && p.email.isNone

/-- Effect of `edit_feedback`'s setattr loop plus the `before_update`
hook (main.py 55-58 and 216-218) on one row.  When no field was set the
object never enters the session's dirty set, no UPDATE is flushed and the
hook does not fire, so the row is unchanged.  When at least one field was
set the object is dirty — SQLAlchemy fires `before_update` for every
dirty instance, even one whose supplied values equal the stored ones —
so the supplied fields are overwritten and the hook resets `updated_at`
to the current time. -/
def applyUpdate (t : Nat) (p : FeedbackUpdate) (r : Feedback) : Feedback :=
  if p.isEmpty then r
  else
    { r with
      score := p.score.getD r.score
      full_name := p.full_name.getD r.full_name
      email := p.email.getD r.email
      updated_at := t }

/-- Mirror of `edit_feedback` (main.py 206-237), run after request
validation has passed: fetch by id (a missing id takes the
raise-catch-rewrap path), apply the supplied fields, return the refreshed
record. -/
def edit_feedback (db : DB) (t : Nat) (fid : Int) (p : FeedbackUpdate) : HttpResponse × DB :=
  match dbGet db fid with
  | none => (notFoundResponse, db)
  | some r =>
      (⟨200, .envelope ⟨200, "Feedback updated successfully",
          some (.item (toResponseData (applyUpdate t p r)))⟩⟩,
       ⟨db.rows.map (fun x => if x.id == fid then applyUpdate t p x else x), db.nextId⟩)

/-- The per-field entries of FastAPI's default 422 body for a failed
`FeedbackCreate`. -/
def createValidationErrors (p : FeedbackCreate) : List String :=
  (if conint_ge1_le5 p.score then [] else ["score"]) ++
  (if isValidEmail p.email then [] else ["email"])

/-- The per-field entries of FastAPI's default 422 body for a failed
`FeedbackUpdate`. -/
def updateValidationErrors (p : FeedbackUpdate) : List String :=
  (match p.score with
   | none => []
   | some s => if conint_ge1_le5 s then [] else ["score"]) ++
  (match p.email with
   | none => []
   | some e => if isValidEmail e then [] else ["email"])

/-- `POST /feedback/` as the client sees it: FastAPI validates the body
against `FeedbackCreate` before the handler runs; a failure yields the
framework's 422 `detail` response and no store interaction. -/
def postFeedback (db : DB) (t : Nat) (p : FeedbackCreate) : HttpResponse × DB :=
  if p.valid then create_feedback db t p
  else (⟨422, .validationDetail (createValidationErrors p)⟩, db)

/-- `PUT /feedback/\x7bid\x7d` as the client sees it: body validation
first, then the handler. -/
def putFeedback (db : DB) (t : Nat) (fid : Int) (p : FeedbackUpdate) : HttpResponse × DB :=
  if p.valid then edit_feedback db t fid p
  else (⟨422, .validationDetail (updateValidationErrors p)⟩, db)

/-- Store invariant: every existing id is below the sequence's next
value, as holds for a serial primary key. -/
def DB.wf (db : DB) : Bool :=
  db.rows.all (fun r => decide (r.id < db.nextId))

/-- Whether an HTTP response carries the envelope body with `code`
mirroring the HTTP status. -/
def envelopeMirrors : HttpResponse → Bool
  | ⟨st, .envelope m⟩ => m.code == st
  | ⟨_, .validationDetail _⟩ => false

/-- The `data` field of an enveloped body (`none` also for a
non-envelope body). -/
def envData : RespBody → Option Payload
  | .envelope m => m.data
  | .validationDetail _ => none

/-! ### Helper lemmas -/

/-- Computing the rewrapped not-found response: `str()` of the 404
exception is the literal text `"404: Feedback not found"`. -/
theorem notFoundResponse_eq :
    notFoundResponse = ⟨500, .envelope ⟨500, "404: Feedback not found", none⟩⟩ := by
  decide

theorem find?_cons_true_eq (fid : Int) (a : Feedback) (l : List Feedback)
    (h : (a.id == fid) = true) :
    (a :: l).find? (fun x => x.id == fid) = some a := by
  simp [List.find?, h]

theorem find?_cons_false_eq (fid : Int) (a : Feedback) (l : List Feedback)
    (h : (a.id == fid) = false) :
    (a :: l).find? (fun x => x.id == fid) = l.find? (fun x => x.id == fid) := by
  simp [List.find?, h]

theorem find?_append_none {α : Type} (p : α → Bool) (l₁ l₂ : List α)
    (h : l₁.find? p = none) : (l₁ ++ l₂).find? p = l₂.find? p := by
  induction l₁ with
  | nil => rfl
  | cons a l ih =>
      cases hpa : p a with
      | true => simp [List.find?, hpa] at h
      | false =>
          simp only [List.find?, hpa] at h
          simp only [List.cons_append, List.find?, hpa]
          exact ih h

theorem applyUpdate_id (t : Nat) (p : FeedbackUpdate) (r : Feedback) :
    (applyUpdate t p r).id = r.id := by
  unfold applyUpdate
  cases h : p.isEmpty <;> simp [h]

theorem applyUpdate_created_at (t : Nat) (p : FeedbackUpdate) (r : Feedback) :
    (applyUpdate t p r).created_at = r.created_at := by
  unfold applyUpdate
  cases h : p.isEmpty <;> simp [h]

/-- A primary-key lookup after the per-row update map returns the updated
image of whatever the lookup returned before, provided the update
preserves the id. -/
theorem find?_update_map (fid : Int) (g : Feedback → Feedback)
    (hg : ∀ x, (g x).id = x.id) (l : List Feedback) :
    (l.map (fun x => if x.id == fid then g x else x)).find? (fun x => x.id == fid) =
      (l.find? (fun x => x.id == fid)).map g := by
  induction l with
  | nil => rfl
  | cons a l ih =>
      by_cases ha : a.id = fid
      · have hb : (a.id == fid) = true := by simp [ha]
        have hgb : ((g a).id == fid) = true := by simp [hg, ha]
        rw [List.map_cons, if_pos hb, find?_cons_true_eq fid (g a) _ hgb,
          find?_cons_true_eq fid a l hb, Option.map_some']
      · have hb : (a.id == fid) = false := by simp [ha]
        have hnb : ¬((a.id == fid) = true) := by simp [hb]
        rw [List.map_cons, if_neg hnb, find?_cons_false_eq fid a _ hb,
          find?_cons_false_eq fid a l hb, ih]

/-! ### The claims -/

/-- C1: for every get-by-id, update or delete request whose id matches no
stored record, the client observes a response with status 500 whose
envelope message is exactly the literal string `"404: Feedback not
found"` (so in particular it contains that substring): the handler's own
`except Exception` clause catches the raised 404 and re-wraps it as a
500 whose detail is `str()` of the 404 exception.  The update request is
taken with a body that passes validation, since an invalid body is
rejected by FastAPI before the handler's not-found check runs. -/
theorem notfound_requests_observe_500_wrapped (db : DB) (t : Nat) (fid : Int)
    (p : FeedbackUpdate) (hnone : dbGet db fid = none) (hv : p.valid = true) :
    get_feedback db fid = ⟨500, .envelope ⟨500, "404: Feedback not found", none⟩⟩ ∧
    (putFeedback db t fid p).1 = ⟨500, .envelope ⟨500, "404: Feedback not found", none⟩⟩ ∧
    (delete_feedback db fid).1 = ⟨500, .envelope ⟨500, "404: Feedback not found", none⟩⟩ := by
  refine ⟨?_, ?_, ?_⟩
  · simp [get_feedback, hnone, notFoundResponse_eq]
  · simp [putFeedback, hv, edit_feedback, hnone, notFoundResponse_eq]
  · simp [delete_feedback, hnone, notFoundResponse_eq]

theorem notfound_requests_observe_500_wrapped_witness :
    dbGet ⟨[], 1⟩ 999 = none ∧
    FeedbackUpdate.valid ⟨some 4, some ("John Smith"), none⟩ = true ∧
    (get_feedback ⟨[], 1⟩ 999 = ⟨500, .envelope ⟨500, "404: Feedback not found", none⟩⟩ ∧
      (putFeedback ⟨[], 1⟩ 5 999 ⟨some 4, some ("John Smith"), none⟩).1 =
        ⟨500, .envelope ⟨500, "404: Feedback not found", none⟩⟩ ∧
      (delete_feedback ⟨[], 1⟩ 999).1 =
        ⟨500, .envelope ⟨500, "404: Feedback not found", none⟩⟩) :=
  ⟨by decide, by decide,
    notfound_requests_observe_500_wrapped ⟨[], 1⟩ 5 999 ⟨some 4, some ("John Smith"), none⟩
      (by decide) (by decide)⟩

/-- C2 counterexample: the create payload with score 3, empty full_name
and a valid email passes pydantic validation (full_name is a bare `str`,
never checked for emptiness) and the create succeeds with status 200,
writing a row with the empty name — the claim says the request is
rejected as a validation error before any store interaction and that no
row is written. -/
theorem empty_full_name_row_written :
    FeedbackCreate.valid ⟨3, "", "john@example.com"⟩ = true ∧
    (postFeedback ⟨[], 1⟩ 7 ⟨3, "", "john@example.com"⟩).1.status = 200 ∧
    (postFeedback ⟨[], 1⟩ 7 ⟨3, "", "john@example.com"⟩).2.rows =
      [⟨1, 3, "", "john@example.com", 7, 7⟩] := by
  decide

/-- C2 (amended): a present-but-empty `full_name` is NOT rejected:
`full_name` is a bare `str` / `Optional[str]` with no emptiness
constraint, so a create payload with empty full_name and otherwise valid
fields passes validation and writes a row carrying the empty name, and
an update supplying only an empty full_name passes validation as well. -/
theorem empty_full_name_accepted (db : DB) (t : Nat) (s : Int) (e : String)
    (hs : conint_ge1_le5 s = true) (he : isValidEmail e = true) :
    FeedbackCreate.valid ⟨s, "", e⟩ = true ∧
    (postFeedback db t ⟨s, "", e⟩).1.status = 200 ∧
    (postFeedback db t ⟨s, "", e⟩).2.rows = db.rows ++ [⟨db.nextId, s, "", e, t, t⟩] ∧
    FeedbackUpdate.valid ⟨none, some (""), none⟩ = true := by
  have hv : FeedbackCreate.valid ⟨s, "", e⟩ = true := by
    simp [FeedbackCreate.valid, hs, he]
  refine ⟨hv, ?_, ?_, by decide⟩
  · simp [postFeedback, hv, create_feedback]
  · simp [postFeedback, hv, create_feedback]

theorem empty_full_name_accepted_witness :
    conint_ge1_le5 3 = true ∧ isValidEmail ("john@example.com") = true ∧
    (FeedbackCreate.valid ⟨3, "", "john@example.com"⟩ = true ∧
      (postFeedback ⟨[], 1⟩ 7 ⟨3, "", "john@example.com"⟩).1.status = 200 ∧
      (postFeedback ⟨[], 1⟩ 7 ⟨3, "", "john@example.com"⟩).2.rows =
        ([] : List Feedback) ++ [⟨1, 3, "", "john@example.com", 7, 7⟩] ∧
      FeedbackUpdate.valid ⟨none, some (""), none⟩ = true) :=
  ⟨by decide, by decide,
    empty_full_name_accepted ⟨[], 1⟩ 7 3 "john@example.com" (by decide) (by decide)⟩

/-- C3: a create or update payload whose supplied score lies outside the
closed range [1,5] is rejected with the framework's 422 validation
response and the store is returned untouched (no row written or
altered), while every score from 1 to 5 inclusive satisfies the
`conint(ge=1, le=5)` constraint. -/
theorem out_of_range_score_rejected (db : DB) (t : Nat) (fid : Int)
    (p : FeedbackCreate) (u : FeedbackUpdate) (s a : Int)
    (hp : p.score < 1 ∨ 5 < p.score) (hu : u.score = some s)
    (hs : s < 1 ∨ 5 < s) (ha1 : 1 ≤ a) (ha5 : a ≤ 5) :
    postFeedback db t p = (⟨422, .validationDetail (createValidationErrors p)⟩, db) ∧
    putFeedback db t fid u = (⟨422, .validationDetail (updateValidationErrors u)⟩, db) ∧
    conint_ge1_le5 a = true := by
  have hcp : conint_ge1_le5 p.score = false := by
    simp [conint_ge1_le5]
    omega
  have hcs : conint_ge1_le5 s = false := by
    simp [conint_ge1_le5]
    omega
  have hvp : p.valid = false := by
    simp [FeedbackCreate.valid, hcp]
  have hvu : u.valid = false := by
    simp [FeedbackUpdate.valid, hu, hcs]
  refine ⟨?_, ?_, ?_⟩
  · simp [postFeedback, hvp]
  · simp [putFeedback, hvu]
  · simp [conint_ge1_le5]
    omega

theorem out_of_range_score_rejected_witness :
    ((0 : Int) < 1 ∨ 5 < (0 : Int)) ∧
    (⟨some 6, none, none⟩ : FeedbackUpdate).score = some 6 ∧
    ((6 : Int) < 1 ∨ 5 < (6 : Int)) ∧ (1 : Int) ≤ 5 ∧ (5 : Int) ≤ 5 ∧
    (postFeedback ⟨[], 1⟩ 3 ⟨0, "John Doe", "j@do.com"⟩ =
        (⟨422, .validationDetail (createValidationErrors ⟨0, "John Doe", "j@do.com"⟩)⟩,
         ⟨[], 1⟩) ∧
      putFeedback ⟨[], 1⟩ 3 1 ⟨some 6, none, none⟩ =
        (⟨422, .validationDetail (updateValidationErrors ⟨some 6, none, none⟩)⟩, ⟨[], 1⟩) ∧
      conint_ge1_le5 5 = true) :=
  ⟨by decide, by decide, by decide, by decide, by decide,
    out_of_range_score_rejected ⟨[], 1⟩ 3 1 ⟨0, "John Doe", "j@do.com"⟩
      ⟨some 6, none, none⟩ 6 5 (by decide) (by decide) (by decide) (by decide) (by decide)⟩

/-- C4: a valid create returns status 200 with a record whose score,
full_name and email equal the submitted values and whose created_at
equals its updated_at (both are the insertion time). -/
theorem create_returns_submitted_values (db : DB) (t : Nat) (p : FeedbackCreate)
    (hv : p.valid = true) :
    ∃ d : FeedbackResponseData,
      (postFeedback db t p).1 =
        ⟨200, .envelope ⟨200, "Feedback submitted successfully", some (.item d)⟩⟩ ∧
      d.score = p.score ∧ d.full_name = p.full_name ∧ d.email = p.email ∧
      d.created_at = d.updated_at := by
  refine ⟨⟨db.nextId, p.score, p.full_name, p.email, t, t⟩, ?_, rfl, rfl, rfl, rfl⟩
  simp [postFeedback, hv, create_feedback, toResponseData]

theorem create_returns_submitted_values_witness :
    FeedbackCreate.valid ⟨4, "Jane Roe", "jane@roe.org"⟩ = true ∧
    (∃ d : FeedbackResponseData,
      (postFeedback ⟨[], 1⟩ 9 ⟨4, "Jane Roe", "jane@roe.org"⟩).1 =
        ⟨200, .envelope ⟨200, "Feedback submitted successfully", some (.item d)⟩⟩ ∧
      d.score = 4 ∧ d.full_name = "Jane Roe" ∧ d.email = "jane@roe.org" ∧
      d.created_at = d.updated_at) :=
  ⟨by decide, create_returns_submitted_values ⟨[], 1⟩ 9 ⟨4, "Jane Roe", "jane@roe.org"⟩ (by decide)⟩

/-- C5: round-trip — a valid create followed by a get-by-id with the id
the create returned, with no intervening mutation, yields a record equal
to the submitted payload in all client-supplied fields.  The store
well-formedness hypothesis (`every existing id is below the primary-key
sequence value`) is the serial-primary-key invariant every reachable
store satisfies. -/
theorem create_then_get_roundtrip (db : DB) (t : Nat) (p : FeedbackCreate)
    (hwf : db.wf = true) (hv : p.valid = true) :
    ∃ i : Int, ∃ d : FeedbackResponseData,
      (postFeedback db t p).1.body =
        .envelope ⟨200, "Feedback submitted successfully", some (.item d)⟩ ∧
      d.id = i ∧
      get_feedback (postFeedback db t p).2 i =
        ⟨200, .envelope ⟨200, "Feedback retrieved successfully", some (.item d)⟩⟩ ∧
      d.score = p.score ∧ d.full_name = p.full_name ∧ d.email = p.email := by
  have hnone : db.rows.find? (fun x => x.id == db.nextId) = none := by
    apply List.find?_eq_none.mpr
    intro x hx
    have hlt : x.id < db.nextId := by
      have := List.all_eq_true.mp hwf x hx
      exact of_decide_eq_true this
    simp only [beq_iff_eq]
    omega
  refine ⟨db.nextId, ⟨db.nextId, p.score, p.full_name, p.email, t, t⟩, ?_, rfl, ?_, rfl, rfl, rfl⟩
  · simp [postFeedback, hv, create_feedback, toResponseData]
  · have hrows : (postFeedback db t p).2.rows =
        db.rows ++ [⟨db.nextId, p.score, p.full_name, p.email, t, t⟩] := by
      simp [postFeedback, hv, create_feedback]
    have hid : (postFeedback db t p).2 =
        ⟨db.rows ++ [⟨db.nextId, p.score, p.full_name, p.email, t, t⟩], db.nextId + 1⟩ := by
      simp [postFeedback, hv, create_feedback]
    rw [hid]
    unfold get_feedback dbGet
    rw [find?_append_none _ _ _ hnone, find?_cons_true_eq _ _ _ (by simp)]
    simp [toResponseData]

theorem create_then_get_roundtrip_witness :
    DB.wf ⟨[], 1⟩ = true ∧
    FeedbackCreate.valid ⟨2, "Ann Lee", "ann@lee.net"⟩ = true ∧
    (∃ i : Int, ∃ d : FeedbackResponseData,
      (postFeedback ⟨[], 1⟩ 4 ⟨2, "Ann Lee", "ann@lee.net"⟩).1.body =
        .envelope ⟨200, "Feedback submitted successfully", some (.item d)⟩ ∧
      d.id = i ∧
      get_feedback (postFeedback ⟨[], 1⟩ 4 ⟨2, "Ann Lee", "ann@lee.net"⟩).2 i =
        ⟨200, .envelope ⟨200, "Feedback retrieved successfully", some (.item d)⟩⟩ ∧
      d.score = 2 ∧ d.full_name = "Ann Lee" ∧ d.email = "ann@lee.net") :=
  ⟨by decide, by decide,
    create_then_get_roundtrip ⟨[], 1⟩ 4 ⟨2, "Ann Lee", "ann@lee.net"⟩ (by decide) (by decide)⟩

/-- C6: an update of an existing record supplying only a (valid) score
returns status 200 with full_name and email taken unchanged from the
prior record and updated_at reset to the current time, which under the
hypothesis that the clock has advanced past the prior updated_at is
strictly greater than it. -/
theorem update_score_only_frame (db : DB) (t : Nat) (fid : Int) (s : Int) (r : Feedback)
    (hfind : dbGet db fid = some r) (hs : conint_ge1_le5 s = true)
    (ht : r.updated_at < t) :
    (putFeedback db t fid ⟨some s, none, none⟩).1 =
      ⟨200, .envelope ⟨200, "Feedback updated successfully",
        some (.item ⟨r.id, s, r.full_name, r.email, r.created_at, t⟩)⟩⟩ ∧
    r.updated_at < t := by
  have hv : FeedbackUpdate.valid ⟨some s, none, none⟩ = true := by
    simp [FeedbackUpdate.valid, hs]
  refine ⟨?_, ht⟩
  simp [putFeedback, hv, edit_feedback, hfind, applyUpdate, FeedbackUpdate.isEmpty,
    toResponseData]

theorem update_score_only_frame_witness :
    dbGet ⟨[⟨1, 3, "John Doe", "j@do.com", 2, 2⟩], 2⟩ 1 =
      some ⟨1, 3, "John Doe", "j@do.com", 2, 2⟩ ∧
    conint_ge1_le5 4 = true ∧ (2 : Nat) < 6 ∧
    ((putFeedback ⟨[⟨1, 3, "John Doe", "j@do.com", 2, 2⟩], 2⟩ 6 1 ⟨some 4, none, none⟩).1 =
        ⟨200, .envelope ⟨200, "Feedback updated successfully",
          some (.item ⟨1, 4, "John Doe", "j@do.com", 2, 6⟩)⟩⟩ ∧
      (2 : Nat) < 6) :=
  ⟨by decide, by decide, by decide,
    update_score_only_frame ⟨[⟨1, 3, "John Doe", "j@do.com", 2, 2⟩], 2⟩ 6 1 4
      ⟨1, 3, "John Doe", "j@do.com", 2, 2⟩ (by decide) (by decide) (by decide)⟩

/-- C7: a successful delete (the id names an existing row) followed by a
get on the same id, with no intervening create, finds nothing and yields
the not-found outcome — here the re-wrapped 500 response; the row is
removed from the store. -/
theorem delete_then_get_not_found (db : DB) (fid : Int) (r : Feedback)
    (hfind : dbGet db fid = some r) :
    (delete_feedback db fid).1.status = 200 ∧
    dbGet (delete_feedback db fid).2 fid = none ∧
    get_feedback (delete_feedback db fid).2 fid =
      ⟨500, .envelope ⟨500, "404: Feedback not found", none⟩⟩ := by
  have hdel : (delete_feedback db fid).2 =
      ⟨db.rows.filter (fun x => x.id != fid), db.nextId⟩ := by
    simp [delete_feedback, dbGet] at hfind ⊢
    rw [hfind]
  have hnone : dbGet (delete_feedback db fid).2 fid = none := by
    rw [hdel]
    apply List.find?_eq_none.mpr
    intro x hx
    have := (List.mem_filter.mp hx).2
    simpa using this
  refine ⟨?_, hnone, ?_⟩
  · simp [delete_feedback, dbGet] at hfind ⊢
    rw [hfind]
  · rw [get_feedback, hnone, notFoundResponse_eq]

theorem delete_then_get_not_found_witness :
    dbGet ⟨[⟨1, 5, "Test User", "t@u.io", 3, 3⟩], 2⟩ 1 =
      some ⟨1, 5, "Test User", "t@u.io", 3, 3⟩ ∧
    ((delete_feedback ⟨[⟨1, 5, "Test User", "t@u.io", 3, 3⟩], 2⟩ 1).1.status = 200 ∧
      dbGet (delete_feedback ⟨[⟨1, 5, "Test User", "t@u.io", 3, 3⟩], 2⟩ 1).2 1 = none ∧
      get_feedback (delete_feedback ⟨[⟨1, 5, "Test User", "t@u.io", 3, 3⟩], 2⟩ 1).2 1 =
        ⟨500, .envelope ⟨500, "404: Feedback not found", none⟩⟩) :=
  ⟨by decide,
    delete_then_get_not_found ⟨[⟨1, 5, "Test User", "t@u.io", 3, 3⟩], 2⟩ 1
      ⟨1, 5, "Test User", "t@u.io", 3, 3⟩ (by decide)⟩

/-- C8 counterexample: the claim says every HTTP response, including
validation failures, has the `\x7bcode, message, data\x7d` envelope
shape — but a create whose score is out of range is answered by
FastAPI's default `RequestValidationError` handler (the source overrides
only `HTTPException` and `Exception`), whose 422 body is a bare `detail`
list without the envelope keys. -/
theorem validation_failure_body_not_enveloped :
    (postFeedback ⟨[], 1⟩ 0 ⟨0, "John Doe", "j@do.com"⟩).1.status = 422 ∧
    (postFeedback ⟨[], 1⟩ 0 ⟨0, "John Doe", "j@do.com"⟩).1.body.isEnvelope = false := by
  decide

/-- C8 (amended): every response produced by the five route handlers and
by the two registered exception handlers has the envelope shape with
`code` mirroring the HTTP status, and `data` is null for delete
responses (both outcomes) and for every error-handler response; the one
exception the claim missed is a request-validation failure, which keeps
the framework's default 422 `detail` body and is not enveloped. -/
theorem responses_enveloped_except_validation (db : DB) (t : Nat) (fid : Int)
    (p : FeedbackCreate) (u : FeedbackUpdate) (q : FeedbackCreate) (exc : HTTPException)
    (hp : p.valid = true) (hu : u.valid = true) (hq : q.valid = false) :
    envelopeMirrors (postFeedback db t p).1 = true ∧
    envelopeMirrors (get_feedback db fid) = true ∧
    envelopeMirrors (get_all_feedback db) = true ∧
    envelopeMirrors (putFeedback db t fid u).1 = true ∧
    envelopeMirrors (delete_feedback db fid).1 = true ∧
    envelopeMirrors (custom_http_exception_handler exc) = true ∧
    envelopeMirrors global_exception_handler = true ∧
    envData (delete_feedback db fid).1.body = none ∧
    envData (custom_http_exception_handler exc).body = none ∧
    envData global_exception_handler.body = none ∧
    postFeedback db t q = (⟨422, .validationDetail (createValidationErrors q)⟩, db) ∧
    (postFeedback db t q).1.body.isEnvelope = false := by
  refine ⟨?_, ?_, ?_, ?_, ?_, ?_, ?_, ?_, ?_, ?_, ?_, ?_⟩
  · simp [postFeedback, hp, create_feedback, envelopeMirrors]
  · cases h : dbGet db fid <;>
      simp [get_feedback, h, notFoundResponse, custom_http_exception_handler, envelopeMirrors]
  · simp [get_all_feedback, envelopeMirrors]
  · cases h : dbGet db fid <;>
      simp [putFeedback, hu, edit_feedback, h, notFoundResponse,
        custom_http_exception_handler, envelopeMirrors]
  · cases h : dbGet db fid <;>
      simp [delete_feedback, h, notFoundResponse, custom_http_exception_handler,
        envelopeMirrors]
  · simp [custom_http_exception_handler, envelopeMirrors]
  · decide
  · cases h : dbGet db fid <;>
      simp [delete_feedback, h, notFoundResponse, custom_http_exception_handler, envData]
  · simp [custom_http_exception_handler, envData]
  · decide
  · simp [postFeedback, hq]
  · simp [postFeedback, hq, RespBody.isEnvelope]

theorem responses_enveloped_except_validation_witness :
    FeedbackCreate.valid ⟨3, "John Doe", "j@do.com"⟩ = true ∧
    FeedbackUpdate.valid ⟨some 4, none, none⟩ = true ∧
    FeedbackCreate.valid ⟨9, "John Doe", "j@do.com"⟩ = false ∧
    (envelopeMirrors (postFeedback ⟨[], 1⟩ 2 ⟨3, "John Doe", "j@do.com"⟩).1 = true ∧
      envelopeMirrors (get_feedback ⟨[], 1⟩ 1) = true ∧
      envelopeMirrors (get_all_feedback ⟨[], 1⟩) = true ∧
      envelopeMirrors (putFeedback ⟨[], 1⟩ 2 1 ⟨some 4, none, none⟩).1 = true ∧
      envelopeMirrors (delete_feedback ⟨[], 1⟩ 1).1 = true ∧
      envelopeMirrors (custom_http_exception_handler ⟨404, "Feedback not found"⟩) = true ∧
      envelopeMirrors global_exception_handler = true ∧
      envData (delete_feedback ⟨[], 1⟩ 1).1.body = none ∧
      envData (custom_http_exception_handler ⟨404, "Feedback not found"⟩).body = none ∧
      envData global_exception_handler.body = none ∧
      postFeedback ⟨[], 1⟩ 2 ⟨9, "John Doe", "j@do.com"⟩ =
        (⟨422, .validationDetail (createValidationErrors ⟨9, "John Doe", "j@do.com"⟩)⟩,
         ⟨[], 1⟩) ∧
      (postFeedback ⟨[], 1⟩ 2 ⟨9, "John Doe", "j@do.com"⟩).1.body.isEnvelope = false) :=
  ⟨by decide, by decide, by decide,
    responses_enveloped_except_validation ⟨[], 1⟩ 2 1 ⟨3, "John Doe", "j@do.com"⟩
      ⟨some 4, none, none⟩ ⟨9, "John Doe", "j@do.com"⟩ ⟨404, "Feedback not found"⟩
      (by decide) (by decide) (by decide)⟩

/-- C9: a (valid) update of an existing record never changes the
record's id or created_at — the update model has no such fields and the
setattr loop touches only supplied fields, so both the stored row and
the returned record keep the prior id and created_at. -/
theorem update_preserves_id_and_created_at (db : DB) (t : Nat) (fid : Int)
    (p : FeedbackUpdate) (r : Feedback)
    (hfind : dbGet db fid = some r) (hv : p.valid = true) :
    dbGet (putFeedback db t fid p).2 fid = some (applyUpdate t p r) ∧
    (applyUpdate t p r).id = r.id ∧
    (applyUpdate t p r).created_at = r.created_at ∧
    (putFeedback db t fid p).1.body =
      .envelope ⟨200, "Feedback updated successfully",
        some (.item (toResponseData (applyUpdate t p r)))⟩ ∧
    (toResponseData (applyUpdate t p r)).id = r.id ∧
    (toResponseData (applyUpdate t p r)).created_at = r.created_at := by
  have hdb : (putFeedback db t fid p).2 =
      ⟨db.rows.map (fun x => if x.id == fid then applyUpdate t p x else x), db.nextId⟩ := by
    simp [putFeedback, hv, edit_feedback, dbGet] at hfind ⊢
    rw [hfind]
  refine ⟨?_, applyUpdate_id t p r, applyUpdate_created_at t p r, ?_, ?_, ?_⟩
  · rw [hdb]
    unfold dbGet at hfind ⊢
    simp only
    rw [find?_update_map fid (applyUpdate t p) (applyUpdate_id t p) db.rows, hfind,
      Option.map_some']
  · simp [putFeedback, hv, edit_feedback, dbGet] at hfind ⊢
    rw [hfind]
  · simp [toResponseData, applyUpdate_id]
  · simp [toResponseData, applyUpdate_created_at]

theorem update_preserves_id_and_created_at_witness :
    dbGet ⟨[⟨1, 3, "John Doe", "j@do.com", 2, 2⟩], 2⟩ 1 =
      some ⟨1, 3, "John Doe", "j@do.com", 2, 2⟩ ∧
    FeedbackUpdate.valid ⟨none, some ("John Smith"), none⟩ = true ∧
    (dbGet (putFeedback ⟨[⟨1, 3, "John Doe", "j@do.com", 2, 2⟩], 2⟩ 6 1
          ⟨none, some ("John Smith"), none⟩).2 1 =
        some (applyUpdate 6 ⟨none, some ("John Smith"), none⟩
          ⟨1, 3, "John Doe", "j@do.com", 2, 2⟩) ∧
      (applyUpdate 6 ⟨none, some ("John Smith"), none⟩
          ⟨1, 3, "John Doe", "j@do.com", 2, 2⟩).id = 1 ∧
      (applyUpdate 6 ⟨none, some ("John Smith"), none⟩
          ⟨1, 3, "John Doe", "j@do.com", 2, 2⟩).created_at = 2 ∧
      (putFeedback ⟨[⟨1, 3, "John Doe", "j@do.com", 2, 2⟩], 2⟩ 6 1
          ⟨none, some ("John Smith"), none⟩).1.body =
        .envelope ⟨200, "Feedback updated successfully",
          some (.item (toResponseData (applyUpdate 6 ⟨none, some ("John Smith"), none⟩
            ⟨1, 3, "John Doe", "j@do.com", 2, 2⟩)))⟩ ∧
      (toResponseData (applyUpdate 6 ⟨none, some ("John Smith"), none⟩
          ⟨1, 3, "John Doe", "j@do.com", 2, 2⟩)).id = 1 ∧
      (toResponseData (applyUpdate 6 ⟨none, some ("John Smith"), none⟩
          ⟨1, 3, "John Doe", "j@do.com", 2, 2⟩)).created_at = 2) :=
  ⟨by decide, by decide,
    update_preserves_id_and_created_at ⟨[⟨1, 3, "John Doe", "j@do.com", 2, 2⟩], 2⟩ 6 1
      ⟨none, some ("John Smith"), none⟩ ⟨1, 3, "John Doe", "j@do.com", 2, 2⟩
      (by decide) (by decide)⟩

/-- C10: an update request on an existing record whose body is the empty
object passes validation, succeeds with status 200, returns the record
exactly as stored (updated_at included), and leaves the store untouched:
`dict(exclude_unset=True)` is empty, no attribute is set, the object
never becomes dirty and the `before_update` hook does not fire. -/
theorem empty_body_update_is_noop (db : DB) (t : Nat) (fid : Int) (r : Feedback)
    (hfind : dbGet db fid = some r) :
    putFeedback db t fid ⟨none, none, none⟩ =
      (⟨200, .envelope ⟨200, "Feedback updated successfully",
          some (.item (toResponseData r))⟩⟩,
       db) := by
  have hv : FeedbackUpdate.valid ⟨none, none, none⟩ = true := rfl
  have happ : ∀ x : Feedback, applyUpdate t ⟨none, none, none⟩ x = x := by
    intro x
    simp [applyUpdate, FeedbackUpdate.isEmpty]
  simp only [putFeedback, hv, if_pos, edit_feedback, dbGet] at hfind ⊢
  rw [hfind]
  simp [happ]

theorem empty_body_update_is_noop_witness :
    dbGet ⟨[⟨1, 3, "John Doe", "j@do.com", 2, 2⟩], 2⟩ 1 =
      some ⟨1, 3, "John Doe", "j@do.com", 2, 2⟩ ∧
    putFeedback ⟨[⟨1, 3, "John Doe", "j@do.com", 2, 2⟩], 2⟩ 6 1 ⟨none, none, none⟩ =
      (⟨200, .envelope ⟨200, "Feedback updated successfully",
          some (.item (toResponseData ⟨1, 3, "John Doe", "j@do.com", 2, 2⟩))⟩⟩,
       ⟨[⟨1, 3, "John Doe", "j@do.com", 2, 2⟩], 2⟩) :=
  ⟨by decide,
    empty_body_update_is_noop ⟨[⟨1, 3, "John Doe", "j@do.com", 2, 2⟩], 2⟩ 6 1
      ⟨1, 3, "John Doe", "j@do.com", 2, 2⟩ (by decide)⟩

end FeedbackService
